import Mathlib

set_option maxHeartbeats 1000000

/-!
Shallow embedding of the chameleon virtual-pet game engine
(`src/types/pet.ts` and `src/hooks/useGameState.ts`).

Modelling conventions:
* JavaScript numbers are modelled as rationals (`ℚ`); all the engine's
  arithmetic is exact on small rationals, so this is faithful.
* `Date` values are modelled as natural-number instants; every operation
  that stamps a timestamp receives the current instant `now : Nat`.
* The nondeterministic `generateId` (wall clock + `Math.random`) is
  modelled as a function of the supplied instant; no claim inspects ids.
* React's `setGameState` functional updates inside one engine call are
  applied sequentially, which is exactly React's semantics for queued
  functional updates; each operation becomes a pure state transformer,
  returning `Bool × GameState` when the source returns a boolean.
* The reaction auto-clear timeout and toast messages are presentation
  effects carrying no game state and are not modelled.
-/

/-- ChameleonType from src/types/pet.ts. -/
inductive ChameleonType
  | veiled
  | panther
  | jackson
deriving DecidableEq, Repr

/-- Per-species info; only the baseColor field is ever read by the engine
(`CHAMELEON_TYPES[type].baseColor`), the display-only fields (name,
description, pattern, icon) are omitted. -/
structure ChameleonTypeInfo where
  baseColor : String
deriving DecidableEq, Repr

/-- CHAMELEON_TYPES record from src/types/pet.ts. -/
def CHAMELEON_TYPES : ChameleonType → ChameleonTypeInfo
  | .veiled => ⟨"#2ECC71"⟩
  | .panther => ⟨"#3498DB"⟩
  | .jackson => ⟨"#27AE60"⟩

/-- PetMood union type from src/types/pet.ts. -/
inductive PetMood
  | happy
  | sad
  | sick
  | energetic
  | tired
  | neutral
  | hungry
  | dirty
deriving DecidableEq, Repr

/-- ReactionType union type from src/types/pet.ts. -/
inductive ReactionType
  | love
  | eating
  | playing
  | sleeping
  | healing
  | sparkle
  | none
deriving DecidableEq, Repr

/-- PetStats interface from src/types/pet.ts (all five vitals). -/
structure PetStats where
  hunger : ℚ
  happiness : ℚ
  health : ℚ
  energy : ℚ
  cleanliness : ℚ
deriving DecidableEq, Repr

/-- Expense category union from src/types/pet.ts. -/
inductive ExpenseCategory
  | food
  | toy
  | health
  | supplies
  | grooming
deriving DecidableEq, Repr

/-- Expense interface from src/types/pet.ts. -/
structure Expense where
  id : String
  category : ExpenseCategory
  description : String
  amount : ℚ
  timestamp : Nat
deriving DecidableEq, Repr

/-- Badge interface from src/types/pet.ts. -/
structure Badge where
  id : String
  name : String
  description : String
  icon : String
  earnedAt : Option Nat := Option.none
  requirement : String
deriving DecidableEq, Repr

/-- Vet service types (keys of VET_SERVICES / VetRecord.type). -/
inductive VetServiceType
  | checkup
  | vaccination
  | treatment
  | emergency
deriving DecidableEq, Repr

/-- VetRecord interface from src/types/pet.ts. -/
structure VetRecord where
  id : String
  type : VetServiceType
  description : String
  cost : ℚ
  date : Nat
  healthBoost : ℚ
deriving DecidableEq, Repr

/-- Pet interface from src/types/pet.ts. `tankEnvironment` is declared in
the interface but never constructed or read by the engine
(`createInitialPet` omits it), so it is not modelled. -/
structure Pet where
  name : String
  type : ChameleonType
  stats : PetStats
  mood : PetMood
  age : Nat
  createdAt : Nat
  evolutionStage : Nat
  tricks : List String
  color : String
  currentReaction : ReactionType
  vetHistory : List VetRecord
  lastVetVisit : Option Nat
deriving DecidableEq, Repr

/-- PlayerFinances interface from src/types/pet.ts. -/
structure PlayerFinances where
  balance : ℚ
  totalSpent : ℚ
  totalEarned : ℚ
  expenses : List Expense
  savingsGoal : ℚ
  savingsProgress : ℚ
deriving DecidableEq, Repr

/-- GameState interface from src/types/pet.ts. -/
structure GameState where
  pet : Pet
  finances : PlayerFinances
  badges : List Badge
  completedChores : List String
  lastUpdated : Nat
  isFirstTime : Bool
  totalPlayTime : Nat
deriving DecidableEq, Repr

/-- ACTION_COSTS entry type from src/types/pet.ts. -/
structure ActionCost where
  cost : ℚ
  category : ExpenseCategory
  description : String
deriving DecidableEq, Repr

/-- ACTION_COSTS record from src/types/pet.ts, as a lookup. -/
def ACTION_COSTS : String → Option ActionCost
  | "feed" => some ⟨5, .food, "Pet food"⟩
  | "treat" => some ⟨8, .food, "Special treat"⟩
  | "play" => some ⟨3, .toy, "Play session"⟩
  | "newToy" => some ⟨15, .toy, "New toy"⟩
  | "checkup" => some ⟨25, .health, "Routine checkup"⟩
  | "vaccination" => some ⟨35, .health, "Vaccination"⟩
  | "treatment" => some ⟨20, .health, "Health treatment"⟩
  | "emergency" => some ⟨50, .health, "Emergency care"⟩
  | "medicine" => some ⟨12, .health, "Medicine"⟩
  | "bath" => some ⟨8, .grooming, "Bath supplies"⟩
  | "bedding" => some ⟨10, .supplies, "Fresh bedding"⟩
  | _ => Option.none

/-- VET_SERVICES entry type from src/types/pet.ts. -/
structure VetService where
  name : String
  cost : ℚ
  healthBoost : ℚ
  description : String
  icon : String
  cooldownHours : ℚ
deriving DecidableEq, Repr

/-- VET_SERVICES record from src/types/pet.ts. -/
def VET_SERVICES : VetServiceType → VetService
  | .checkup => ⟨"Routine Checkup", 25, 30, "General health examination", "A", 4⟩
  | .vaccination => ⟨"Vaccination", 35, 15, "Preventive immunization", "B", 24⟩
  | .treatment => ⟨"Treatment", 20, 40, "Medicine and care", "C", 2⟩
  | .emergency => ⟨"Emergency Care", 50, 60, "Urgent medical attention", "D", 0⟩

/-- AVAILABLE_BADGES catalog from src/types/pet.ts (icons abbreviated;
they are never compared, only ids are). -/
def AVAILABLE_BADGES : List Badge :=
  [ ⟨"first_pet", "New Pet Parent", "Named your first chameleon", "I1", Option.none, "Name your pet"⟩,
    ⟨"well_fed", "Master Chef", "Keep hunger above 80 for a full session", "I2", Option.none, "Maintain high hunger stat"⟩,
    ⟨"happy_camper", "Joy Bringer", "Reach 100 percent happiness", "I3", Option.none, "Max out happiness"⟩,
    ⟨"clean_freak", "Squeaky Clean", "Give 5 baths in one session", "I4", Option.none, "Bath your pet 5 times"⟩,
    ⟨"money_saver", "Smart Saver", "Save 100 dollars in your balance", "I5", Option.none, "Accumulate 100 dollars"⟩,
    ⟨"hard_worker", "Super Helper", "Complete 10 chores", "I6", Option.none, "Do 10 chores"⟩,
    ⟨"healthy_pet", "Health Hero", "Keep health at 100 percent for 5 minutes", "I7", Option.none, "Maintain perfect health"⟩,
    ⟨"trick_master", "Trick Trainer", "Teach your pet 3 tricks", "I8", Option.none, "Train 3 tricks"⟩,
    ⟨"vet_regular", "Vet Regular", "Visit the vet 5 times", "I9", Option.none, "Complete 5 vet visits"⟩,
    ⟨"evolution_1", "Growing Up", "Your pet evolved to juvenile", "I10", Option.none, "Reach juvenile stage"⟩,
    ⟨"evolution_2", "All Grown Up", "Your pet evolved to adult", "I11", Option.none, "Reach adult stage"⟩ ]

/-- calculateMood from src/types/pet.ts: priority-based mood calculation. -/
def calculateMood (stats : PetStats) : PetMood :=
  if stats.health < 25 then .sick
  else if stats.hunger < 20 then .hungry
  else if stats.cleanliness < 20 then .dirty
  else if stats.energy < 15 then .tired
  else if stats.happiness < 25 then .sad
  else if 80 < stats.energy ∧ 75 < stats.happiness then .energetic
  else if 70 < stats.happiness ∧ 60 < stats.hunger ∧ 70 < stats.health then .happy
  else .neutral

/-- getMoodColor from src/types/pet.ts. -/
def getMoodColor (mood : PetMood) (baseColor : Option String) : String :=
  match mood with
  | .happy => "#FFD93D"
  | .sad => "#6B7FD7"
  | .sick => "#9B59B6"
  | .energetic => "#FF6B35"
  | .tired => "#74B9FF"
  | .neutral => baseColor.getD "#2ECC71"
  | .hungry => "#E67E22"
  | .dirty => "#8B7355"

/-- getEvolutionStage from src/types/pet.ts. -/
def getEvolutionStage (age : Nat) : Nat :=
  if 7 ≤ age then 3
  else if 3 ≤ age then 2
  else 1

set_option linter.unusedVariables false in
/-- calculateAge from src/types/pet.ts: 1 in-game day = 5 minutes of play
time (the createdAt argument is unused in the source as well). -/
def calculateAge (createdAt : Nat) (totalPlayTime : Nat) : Nat :=
  totalPlayTime / 5

/-- JavaScript `String.prototype.trim`: strip leading and trailing
whitespace. (Lean's own `String.trim` is extensionally the same but is
defined by well-founded recursion, which blocks kernel evaluation, so the
model uses a structurally recursive definition over the character list.) -/
def trimString (s : String) : String :=
  String.mk (((s.data.dropWhile Char.isWhitespace).reverse.dropWhile Char.isWhitespace).reverse)

/-- generateId from useGameState.ts, modelled as a function of the
current instant (the source combines wall clock and Math.random; ids are
never inspected by the engine). -/
def generateId (now : Nat) : String :=
  toString now

/-- createInitialPet from useGameState.ts. -/
def createInitialPet (now : Nat) (name : String) (type : ChameleonType) : Pet :=
  { name := name
    type := type
    stats := { hunger := 75, happiness := 80, health := 100, energy := 85, cleanliness := 95 }
    mood := .happy
    age := 0
    createdAt := now
    evolutionStage := 1
    tricks := []
    color := getMoodColor .happy (some (CHAMELEON_TYPES type).baseColor)
    currentReaction := .none
    vetHistory := []
    lastVetVisit := Option.none }

/-- createInitialFinances from useGameState.ts. -/
def createInitialFinances : PlayerFinances :=
  { balance := 50
    totalSpent := 0
    totalEarned := 50
    expenses := []
    savingsGoal := 100
    savingsProgress := 0 }

/-- createInitialGameState from useGameState.ts. -/
def createInitialGameState (now : Nat) : GameState :=
  { pet := createInitialPet now "" .veiled
    finances := createInitialFinances
    badges := []
    completedChores := []
    lastUpdated := now
    isFirstTime := true
    totalPlayTime := 0 }

/-- Truthiness of `prev.badges.find(b => b.id === badgeId)` in
useGameState.ts. -/
def hasBadge (badges : List Badge) (badgeId : String) : Bool :=
  (badges.find? (fun b => b.id == badgeId)).isSome

/-- The repeated pattern `const badge = AVAILABLE_BADGES.find(b => b.id
=== badgeId); if (badge) newBadges.push({ ...badge, earnedAt: new Date()
})` from useGameState.ts. -/
def pushBadge (badgeId : String) (now : Nat) (badges : List Badge) : List Badge :=
  match AVAILABLE_BADGES.find? (fun b => b.id == badgeId) with
  | some b => badges ++ [{ b with earnedAt := some now }]
  | Option.none => badges

/-- setReaction from useGameState.ts (the 1.5 s auto-clear timeout is a
transient presentation effect and is not modelled). -/
def setReaction (reaction : ReactionType) (st : GameState) : GameState :=
  { st with pet := { st.pet with currentReaction := reaction } }

/-- The stat decay effect body from useGameState.ts (runs only while a
pet exists: the effect is not installed when `isFirstTime` is true).
Decay amounts: hunger 2, happiness 1, energy 1, cleanliness 1.5, and
health 3 when the pre-tick hunger or cleanliness is below 20, else 0.5. -/
def decayTick (now : Nat) (st : GameState) : GameState :=
  if st.isFirstTime then st
  else
    let s := st.pet.stats
    let newStats : PetStats :=
      { hunger := max 0 (s.hunger - 2)
        happiness := max 0 (s.happiness - 1)
        health := if s.hunger < 20 ∨ s.cleanliness < 20
                  then max 0 (s.health - 3)
                  else max 0 (s.health - 1/2)
        energy := max 0 (s.energy - 1)
        cleanliness := max 0 (s.cleanliness - 3/2) }
    let newMood := calculateMood newStats
    { st with
      pet := { st.pet with
        stats := newStats
        mood := newMood
        color := getMoodColor newMood (some (CHAMELEON_TYPES st.pet.type).baseColor) }
      lastUpdated := now }

/-- The play-time tracking effect body from useGameState.ts. -/
def playTimeTick (st : GameState) : GameState :=
  if st.isFirstTime then st
  else { st with totalPlayTime := st.totalPlayTime + 1 }

/-- The evolution-check effect body from useGameState.ts. -/
def evolutionTick (now : Nat) (st : GameState) : GameState :=
  if st.isFirstTime then st
  else
    let newAge := calculateAge st.pet.createdAt st.totalPlayTime
    let newStage := getEvolutionStage newAge
    if newStage ≠ st.pet.evolutionStage then
      let badgeId := if newStage = 2 then "evolution_1" else "evolution_2"
      let newBadges :=
        if hasBadge st.badges badgeId = false then pushBadge badgeId now st.badges
        else st.badges
      { st with
        pet := { st.pet with age := newAge, evolutionStage := newStage, currentReaction := .sparkle }
        badges := newBadges }
    else { st with pet := { st.pet with age := newAge } }

/-- Partial stat changes (the `Partial<PetStats>` argument of
updateStats): a field that is absent leaves that stat untouched. -/
structure StatChanges where
  hunger : Option ℚ := Option.none
  happiness : Option ℚ := Option.none
  health : Option ℚ := Option.none
  energy : Option ℚ := Option.none
  cleanliness : Option ℚ := Option.none
deriving DecidableEq, Repr

/-- One entry of the `Object.entries(statChanges)` loop in updateStats:
present keys are clamped into [0,100] after adding the delta. -/
def applyChange (cur : ℚ) : Option ℚ → ℚ
  | Option.none => cur
  | some d => max 0 (min 100 (cur + d))

/-- updateStats from useGameState.ts. -/
def updateStats (changes : StatChanges) (now : Nat) (st : GameState) : GameState :=
  let newStats : PetStats :=
    { hunger := applyChange st.pet.stats.hunger changes.hunger
      happiness := applyChange st.pet.stats.happiness changes.happiness
      health := applyChange st.pet.stats.health changes.health
      energy := applyChange st.pet.stats.energy changes.energy
      cleanliness := applyChange st.pet.stats.cleanliness changes.cleanliness }
  let newMood := calculateMood newStats
  { st with
    pet := { st.pet with
      stats := newStats
      mood := newMood
      color := getMoodColor newMood (some (CHAMELEON_TYPES st.pet.type).baseColor) }
    lastUpdated := now }

/-- spendMoney from useGameState.ts. -/
def spendMoney (actionKey : String) (now : Nat) (st : GameState) : Bool × GameState :=
  match ACTION_COSTS actionKey with
  | Option.none => (false, st)
  | some action =>
    if st.finances.balance < action.cost then (false, st)
    else
      let expense : Expense :=
        { id := generateId now
          category := action.category
          description := action.description
          amount := action.cost
          timestamp := now }
      (true,
        { st with finances := { st.finances with
            balance := st.finances.balance - action.cost
            totalSpent := st.finances.totalSpent + action.cost
            expenses := (expense :: st.finances.expenses).take 50 } })

/-- earnMoney from useGameState.ts. -/
def earnMoney (amount : ℚ) (choreId : String) (now : Nat) (st : GameState) : GameState :=
  let newCompletedChores := st.completedChores ++ [choreId]
  let newBadges :=
    if 10 ≤ newCompletedChores.length ∧ hasBadge st.badges "hard_worker" = false
    then pushBadge "hard_worker" now st.badges
    else st.badges
  let newBalance := st.finances.balance + amount
  let newBadges2 :=
    if 100 ≤ newBalance ∧ hasBadge st.badges "money_saver" = false
    then pushBadge "money_saver" now newBadges
    else newBadges
  { st with
    finances := { st.finances with
      balance := newBalance
      totalEarned := st.finances.totalEarned + amount }
    badges := newBadges2
    completedChores := newCompletedChores }

/-- The post-action badge check in performAction (happiness at 100 grants
happy_camper); it reads the state produced by the preceding updateStats. -/
def happyCamperCheck (now : Nat) (st : GameState) : GameState :=
  { st with badges :=
      if 100 ≤ st.pet.stats.happiness ∧ hasBadge st.badges "happy_camper" = false
      then pushBadge "happy_camper" now st.badges
      else st.badges }

/-- The shared tail of the priced cases of performAction: charge the
action cost (no mutation and failure if it cannot be paid), then apply
the stat deltas, set the reaction and run the badge check. -/
def paidAction (changes : StatChanges) (actionKey : String) (reaction : ReactionType)
    (now : Nat) (st : GameState) : Bool × GameState :=
  let r := spendMoney actionKey now st
  if r.1 then
    (true, happyCamperCheck now (setReaction reaction (updateStats changes now r.2)))
  else (false, st)

/-- performAction from useGameState.ts. The switch assigns the stat
deltas, expense key and reaction per action; `rest` is free, returns
early and skips the badge check; unknown ids return false. -/
def performAction (action : String) (now : Nat) (st : GameState) : Bool × GameState :=
  if action = "feed" then
    paidAction { hunger := some 25, energy := some 5 } "feed" .eating now st
  else if action = "treat" then
    paidAction { hunger := some 15, happiness := some 20 } "treat" .love now st
  else if action = "play" then
    paidAction { happiness := some 25, energy := some (-15) } "play" .playing now st
  else if action = "rest" then
    (true, setReaction .sleeping (updateStats { energy := some 35, happiness := some 5 } now st))
  else if action = "clean" then
    paidAction { cleanliness := some 40, happiness := some 5 } "bath" .sparkle now st
  else (false, st)

/-- performVetService from useGameState.ts. -/
def performVetService (serviceType : VetServiceType) (now : Nat) (st : GameState) :
    Bool × GameState :=
  let service := VET_SERVICES serviceType
  if st.finances.balance < service.cost then (false, st)
  else
    let expense : Expense :=
      { id := generateId now
        category := .health
        description := service.name
        amount := service.cost
        timestamp := now }
    let vetRecord : VetRecord :=
      { id := generateId now
        type := serviceType
        description := service.name
        cost := service.cost
        date := now
        healthBoost := service.healthBoost }
    let newVetHistory := (vetRecord :: st.pet.vetHistory).take 20
    let newBadges :=
      if 5 ≤ newVetHistory.length ∧ hasBadge st.badges "vet_regular" = false
      then pushBadge "vet_regular" now st.badges
      else st.badges
    let newHealth := min 100 (st.pet.stats.health + service.healthBoost)
    let newStats := { st.pet.stats with health := newHealth }
    let newMood := calculateMood newStats
    (true, setReaction .healing
      { st with
        pet := { st.pet with
          stats := newStats
          mood := newMood
          color := getMoodColor newMood (some (CHAMELEON_TYPES st.pet.type).baseColor)
          vetHistory := newVetHistory
          lastVetVisit := some now
          currentReaction := .healing }
        finances := { st.finances with
          balance := st.finances.balance - service.cost
          totalSpent := st.finances.totalSpent + service.cost
          expenses := (expense :: st.finances.expenses).take 50 }
        badges := newBadges })

/-- teachTrick from useGameState.ts. -/
def teachTrick (trickName : String) (now : Nat) (st : GameState) : Bool × GameState :=
  if st.pet.stats.energy < 30 then (false, st)
  else if trickName ∈ st.pet.tricks then (false, st)
  else
    let newTricks := st.pet.tricks ++ [trickName]
    let newBadges :=
      if 3 ≤ newTricks.length ∧ hasBadge st.badges "trick_master" = false
      then pushBadge "trick_master" now st.badges
      else st.badges
    (true, setReaction .sparkle
      { st with
        pet := { st.pet with
          tricks := newTricks
          stats := { st.pet.stats with
            energy := max 0 (st.pet.stats.energy - 20)
            happiness := min 100 (st.pet.stats.happiness + 15) }
          currentReaction := .sparkle }
        badges := newBadges })

/-- initializePet from useGameState.ts (named initPet here): rejects a
name that trims to empty or whose raw length exceeds 20, otherwise
creates the pet, clears the first-time flag and replaces the badge list
with the first_pet badge. -/
def initPet (name : String) (type : ChameleonType) (now : Nat) (st : GameState) :
    Bool × GameState :=
  if trimString name = "" then (false, st)
  else if 20 < name.length then (false, st)
  else
    let newPet := createInitialPet now (trimString name) type
    (true,
      { st with
        pet := newPet
        isFirstTime := false
        badges :=
          match AVAILABLE_BADGES.find? (fun b => b.id == "first_pet") with
          | some b => [{ b with earnedAt := some now }]
          | Option.none => [] })

/-- resetGame from useGameState.ts. -/
def resetGame (now : Nat) : GameState :=
  createInitialGameState now

/-- The name validation performed by handleSubmit in
src/components/pet/WelcomeScreen.tsx before it ever calls initializePet:
nonempty after trimming, 2 to 20 characters, and every character a letter,
digit or whitespace (the regex test against the class a-zA-Z0-9 and
whitespace). -/
def welcomeNameOk (name : String) : Bool :=
  let trimmed := trimString name
  if trimmed = "" then false
  else if trimmed.length < 2 then false
  else if 20 < trimmed.length then false
  else trimmed.toList.all (fun c => c.isAlphanum || c.isWhitespace)

/-- The engine operations reachable from the hook's public interface and
its timers, for stating reachable-state invariants. -/
inductive Op
  | decay (now : Nat)
  | playTime
  | evolve (now : Nat)
  | init (now : Nat) (name : String) (type : ChameleonType)
  | update (changes : StatChanges) (now : Nat)
  | spend (key : String) (now : Nat)
  | earn (amount : ℚ) (choreId : String) (now : Nat)
  | act (action : String) (now : Nat)
  | vet (s : VetServiceType) (now : Nat)
  | trick (name : String) (now : Nat)
  | react (r : ReactionType)
  | reset (now : Nat)

/-- Apply one engine operation (discarding the boolean result where the
source returns one). -/
def applyOp (op : Op) (st : GameState) : GameState :=
  match op with
  | .decay now => decayTick now st
  | .playTime => playTimeTick st
  | .evolve now => evolutionTick now st
  | .init now name type => (initPet name type now st).2
  | .update changes now => updateStats changes now st
  | .spend key now => (spendMoney key now st).2
  | .earn amount choreId now => earnMoney amount choreId now st
  | .act action now => (performAction action now st).2
  | .vet s now => (performVetService s now st).2
  | .trick name now => (teachTrick name now st).2
  | .react r => setReaction r st
  | .reset now => resetGame now

/-- Run a sequence of engine operations from the freshly created game
state. -/
def runOps (now : Nat) (ops : List Op) : GameState :=
  ops.foldl (fun s o => applyOp o s) (createInitialGameState now)

/-- A single stat is legal when it lies in [0,100]. -/
def statOk (x : ℚ) : Prop := 0 ≤ x ∧ x ≤ 100

/-- All five stats lie in [0,100]. -/
def statsInRange (s : PetStats) : Prop :=
  statOk s.hunger ∧ statOk s.happiness ∧ statOk s.health ∧ statOk s.energy ∧ statOk s.cleanliness

instance : DecidablePred statOk := fun _ => by unfold statOk; infer_instance

instance (s : PetStats) : Decidable (statsInRange s) := by unfold statsInRange; infer_instance

/-- The stored mood and color agree with the stats they were derived
from. -/
def moodConsistent (st : GameState) : Prop :=
  st.pet.mood = calculateMood st.pet.stats ∧
  st.pet.color = getMoodColor st.pet.mood (some (CHAMELEON_TYPES st.pet.type).baseColor)

/-- No badge id occurs twice in the earned-badge list. -/
def BadgesOk (st : GameState) : Prop :=
  (st.badges.map Badge.id).Nodup

instance : DecidablePred BadgesOk := fun _ => by unfold BadgesOk; infer_instance

instance (st : GameState) : Decidable (moodConsistent st) := by
  unfold moodConsistent; infer_instance

/-! Concrete states used by witnesses and counterexamples. -/

/-- The game state right after initializing a pet named Rex of type
veiled from the fresh default state (the spec's end-to-end scenario). -/
def freshRex : GameState :=
  (initPet "Rex" .veiled 0 (createInitialGameState 0)).2

/-- A legal state whose mood agrees with its stats and whose energy sits
exactly at the trick threshold 30. -/
def staleSt : GameState :=
  { pet := { name := "Cam"
             type := .veiled
             stats := { hunger := 50, happiness := 50, health := 100, energy := 30, cleanliness := 50 }
             mood := .neutral
             age := 0
             createdAt := 0
             evolutionStage := 1
             tricks := []
             color := "#2ECC71"
             currentReaction := .none
             vetHistory := []
             lastVetVisit := Option.none }
    finances := createInitialFinances
    badges := []
    completedChores := []
    lastUpdated := 0
    isFirstTime := false
    totalPlayTime := 0 }

/-- Nine completions of the same chore id from the fresh Rex state. -/
def nineSame : GameState :=
  (List.range 9).foldl (fun s i => earnMoney 8 "dishes" i s) freshRex

/-- Fresh Rex state with the balance forced to 5 (exactly the feed cost). -/
def stBal5 : GameState :=
  { freshRex with finances := { freshRex.finances with balance := 5 } }

/-- Fresh Rex state with the balance forced to 4 (one below the feed cost). -/
def stBal4 : GameState :=
  { freshRex with finances := { freshRex.finances with balance := 4 } }

/-! Arithmetic facts about the clamping patterns of the source. -/

theorem statOk_clamp (x d : ℚ) : statOk (max 0 (min 100 (x + d))) :=
  ⟨le_max_left 0 _, max_le (by norm_num) (min_le_left _ _)⟩

theorem statOk_applyChange {x : ℚ} (hx : statOk x) (o : Option ℚ) : statOk (applyChange x o) := by
  cases o with
  | none => exact hx
  | some d => exact statOk_clamp x d

theorem statOk_subClamp {x : ℚ} (hx : statOk x) {d : ℚ} (hd : 0 ≤ d) : statOk (max 0 (x - d)) :=
  ⟨le_max_left 0 _, max_le (by norm_num) (by linarith [hx.2])⟩

theorem statOk_addMin {x : ℚ} (hx : statOk x) {d : ℚ} (hd : 0 ≤ d) : statOk (min 100 (x + d)) :=
  ⟨le_min (by linarith [hx.1]) (by linarith [hx.1]), min_le_left _ _⟩

theorem healthBoost_nonneg (s : VetServiceType) : 0 ≤ (VET_SERVICES s).healthBoost := by
  cases s <;> norm_num [VET_SERVICES]

/-! Frame facts: which parts of the state each operation leaves alone. -/

theorem spendMoney_pet (k : String) (now : Nat) (st : GameState) :
    ((spendMoney k now st).2).pet = st.pet := by
  unfold spendMoney
  cases hA : ACTION_COSTS k with
  | none => rfl
  | some a =>
    by_cases h : st.finances.balance < a.cost <;> simp [h]

theorem spendMoney_badges (k : String) (now : Nat) (st : GameState) :
    ((spendMoney k now st).2).badges = st.badges := by
  unfold spendMoney
  cases hA : ACTION_COSTS k with
  | none => rfl
  | some a =>
    by_cases h : st.finances.balance < a.cost <;> simp [h]

theorem updateStats_stats_def (changes : StatChanges) (now : Nat) (st : GameState) :
    (updateStats changes now st).pet.stats =
      { hunger := applyChange st.pet.stats.hunger changes.hunger
        happiness := applyChange st.pet.stats.happiness changes.happiness
        health := applyChange st.pet.stats.health changes.health
        energy := applyChange st.pet.stats.energy changes.energy
        cleanliness := applyChange st.pet.stats.cleanliness changes.cleanliness } := rfl

theorem updateStats_statsInRange (changes : StatChanges) (now : Nat) {st : GameState}
    (h : statsInRange st.pet.stats) : statsInRange (updateStats changes now st).pet.stats := by
  obtain ⟨h1, h2, h3, h4, h5⟩ := h
  exact ⟨statOk_applyChange h1 _, statOk_applyChange h2 _, statOk_applyChange h3 _,
         statOk_applyChange h4 _, statOk_applyChange h5 _⟩

theorem decayTick_statsInRange (now : Nat) {st : GameState}
    (h : statsInRange st.pet.stats) : statsInRange (decayTick now st).pet.stats := by
  obtain ⟨h1, h2, h3, h4, h5⟩ := h
  unfold decayTick
  by_cases hf : st.isFirstTime
  · simp only [hf, if_true]
    exact ⟨h1, h2, h3, h4, h5⟩
  · simp only [hf, if_false]
    refine ⟨statOk_subClamp h1 (by norm_num), statOk_subClamp h2 (by norm_num), ?_,
            statOk_subClamp h4 (by norm_num), statOk_subClamp h5 (by norm_num)⟩
    by_cases hc : st.pet.stats.hunger < 20 ∨ st.pet.stats.cleanliness < 20
    · simp only [hc, if_true]
      exact statOk_subClamp h3 (by norm_num)
    · simp only [hc, if_false]
      exact statOk_subClamp h3 (by norm_num)

theorem teachTrick_statsInRange (n : String) (now : Nat) {st : GameState}
    (h : statsInRange st.pet.stats) : statsInRange (teachTrick n now st).2.pet.stats := by
  obtain ⟨h1, h2, h3, h4, h5⟩ := h
  unfold teachTrick
  by_cases he : st.pet.stats.energy < 30
  · simp only [he, if_true]
    exact ⟨h1, h2, h3, h4, h5⟩
  · simp only [he, if_false]
    by_cases hm : n ∈ st.pet.tricks
    · simp only [hm, if_true]
      exact ⟨h1, h2, h3, h4, h5⟩
    · simp only [hm, if_false]
      exact ⟨h1, statOk_addMin h2 (by norm_num), h3, statOk_subClamp h4 (by norm_num), h5⟩

theorem performVetService_statsInRange (s : VetServiceType) (now : Nat) {st : GameState}
    (h : statsInRange st.pet.stats) : statsInRange (performVetService s now st).2.pet.stats := by
  obtain ⟨h1, h2, h3, h4, h5⟩ := h
  unfold performVetService
  by_cases hb : st.finances.balance < (VET_SERVICES s).cost
  · simp only [hb, if_true]
    exact ⟨h1, h2, h3, h4, h5⟩
  · simp only [hb, if_false]
    exact ⟨h1, h2, statOk_addMin h3 (healthBoost_nonneg s), h4, h5⟩

theorem performAction_statsInRange (a : String) (now : Nat) {st : GameState}
    (h : statsInRange st.pet.stats) : statsInRange (performAction a now st).2.pet.stats := by
  have hpaid : ∀ (changes : StatChanges) (key : String) (r : ReactionType),
      statsInRange (paidAction changes key r now st).2.pet.stats := by
    intro changes key r
    unfold paidAction
    by_cases hr : (spendMoney key now st).1
    · simp only [hr, if_true]
      have hpet : ((spendMoney key now st).2).pet = st.pet := spendMoney_pet key now st
      have : statsInRange ((spendMoney key now st).2).pet.stats := by rw [hpet]; exact h
      exact updateStats_statsInRange changes now this
    · simp only [hr, if_false]
      exact h
  unfold performAction
  by_cases h1 : a = "feed"
  · simp only [h1, if_true]; exact hpaid _ _ _
  · simp only [h1, if_false]
    by_cases h2 : a = "treat"
    · simp only [h2, if_true]; exact hpaid _ _ _
    · simp only [h2, if_false]
      by_cases h3 : a = "play"
      · simp only [h3, if_true]; exact hpaid _ _ _
      · simp only [h3, if_false]
        by_cases h4 : a = "rest"
        · simp only [h4, if_true]
          exact updateStats_statsInRange _ now h
        · simp only [h4, if_false]
          by_cases h5 : a = "clean"
          · simp only [h5, if_true]; exact hpaid _ _ _
          · simp only [h5, if_false]
            exact h

/-- C1: for every game state whose five stats lie in [0,100], every
stat-mutating engine operation (a decay tick, updateStats, performAction,
performVetService, teachTrick) produces a state in which each of the five
stats again lies in [0,100]. -/
theorem stat_mutations_stay_clamped (st : GameState) (h : statsInRange st.pet.stats) :
    (∀ now, statsInRange (decayTick now st).pet.stats) ∧
    (∀ changes now, statsInRange (updateStats changes now st).pet.stats) ∧
    (∀ action now, statsInRange (performAction action now st).2.pet.stats) ∧
    (∀ s now, statsInRange (performVetService s now st).2.pet.stats) ∧
    (∀ n now, statsInRange (teachTrick n now st).2.pet.stats) :=
  ⟨fun now => decayTick_statsInRange now h,
   fun changes now => updateStats_statsInRange changes now h,
   fun action now => performAction_statsInRange action now h,
   fun s now => performVetService_statsInRange s now h,
   fun n now => teachTrick_statsInRange n now h⟩

/-- C1 witness: the invariant theorem applied at the concrete fresh Rex
state. -/
theorem stat_mutations_stay_clamped_witness :
    statsInRange freshRex.pet.stats ∧ statsInRange (decayTick 5 freshRex).pet.stats :=
  ⟨by with_unfolding_all decide,
   (stat_mutations_stay_clamped freshRex (by with_unfolding_all decide)).1 5⟩

/-- C2: calculateMood is a pure, total, deterministic function of the
five stats, evaluated as an ordered priority chain where the first
matching rule wins (sick, hungry, dirty, tired, sad, energetic, happy,
neutral); in particular health=10 together with hunger=10 yields sick,
not hungry. -/
theorem calculateMood_priority_chain (s : PetStats) :
    (∀ t : PetStats, s = t → calculateMood s = calculateMood t) ∧
    (s.health < 25 → calculateMood s = .sick) ∧
    (¬s.health < 25 → s.hunger < 20 → calculateMood s = .hungry) ∧
    (¬s.health < 25 → ¬s.hunger < 20 → s.cleanliness < 20 → calculateMood s = .dirty) ∧
    (¬s.health < 25 → ¬s.hunger < 20 → ¬s.cleanliness < 20 → s.energy < 15 →
      calculateMood s = .tired) ∧
    (¬s.health < 25 → ¬s.hunger < 20 → ¬s.cleanliness < 20 → ¬s.energy < 15 →
      s.happiness < 25 → calculateMood s = .sad) ∧
    (¬s.health < 25 → ¬s.hunger < 20 → ¬s.cleanliness < 20 → ¬s.energy < 15 →
      ¬s.happiness < 25 → 80 < s.energy → 75 < s.happiness → calculateMood s = .energetic) ∧
    (¬s.health < 25 → ¬s.hunger < 20 → ¬s.cleanliness < 20 → ¬s.energy < 15 →
      ¬s.happiness < 25 → ¬(80 < s.energy ∧ 75 < s.happiness) →
      70 < s.happiness → 60 < s.hunger → 70 < s.health → calculateMood s = .happy) ∧
    (¬s.health < 25 → ¬s.hunger < 20 → ¬s.cleanliness < 20 → ¬s.energy < 15 →
      ¬s.happiness < 25 → ¬(80 < s.energy ∧ 75 < s.happiness) →
      ¬(70 < s.happiness ∧ 60 < s.hunger ∧ 70 < s.health) → calculateMood s = .neutral) ∧
    (s.health = 10 → s.hunger = 10 → calculateMood s = .sick) := by
  refine ⟨fun t ht => by rw [ht], ?_, ?_, ?_, ?_, ?_, ?_, ?_, ?_, ?_⟩
  · intro h1
    simp only [calculateMood, h1, if_true]
  · intro h1 h2
    simp only [calculateMood, h1, h2, if_true, if_false]
  · intro h1 h2 h3
    simp only [calculateMood, h1, h2, h3, if_true, if_false]
  · intro h1 h2 h3 h4
    simp only [calculateMood, h1, h2, h3, h4, if_true, if_false]
  · intro h1 h2 h3 h4 h5
    simp only [calculateMood, h1, h2, h3, h4, h5, if_true, if_false]
  · intro h1 h2 h3 h4 h5 h6 h7
    simp only [calculateMood, h1, h2, h3, h4, h5, if_false]
    rw [if_pos ⟨h6, h7⟩]
  · intro h1 h2 h3 h4 h5 h6 h7 h8 h9
    simp only [calculateMood, h1, h2, h3, h4, h5, h6, if_false]
    rw [if_pos ⟨h7, h8, h9⟩]
  · intro h1 h2 h3 h4 h5 h6 h7
    simp only [calculateMood, h1, h2, h3, h4, h5, h6, h7, if_false]
  · intro h1 h2
    have : s.health < 25 := by rw [h1]; norm_num
    simp only [calculateMood, this, if_true]

/-- C2 witness: the priority-chain theorem applied at hunger=10,
health=10 (both critical): the result is sick, the health rule winning. -/
theorem calculateMood_priority_chain_witness :
    calculateMood { hunger := 10, happiness := 50, health := 10, energy := 50, cleanliness := 50 } = .sick :=
  (calculateMood_priority_chain _).2.2.2.2.2.2.2.2.2 rfl rfl

/-- C3: for every priced action, charging with a balance strictly below
the cost fails and leaves the whole state unchanged (spendMoney returns
false with the state as it was, and performAction therefore also fails
without mutation); with balance at least the cost the charge succeeds and
deducts exactly the cost, adding it to totalSpent. -/
theorem spendMoney_charge (key : String) (a : ActionCost) (now : Nat) (st : GameState)
    (hA : ACTION_COSTS key = some a) :
    (st.finances.balance < a.cost → spendMoney key now st = (false, st)) ∧
    (a.cost ≤ st.finances.balance →
      (spendMoney key now st).1 = true ∧
      (spendMoney key now st).2.finances.balance = st.finances.balance - a.cost ∧
      (spendMoney key now st).2.finances.totalSpent = st.finances.totalSpent + a.cost) ∧
    (st.finances.balance < 5 → performAction "feed" now st = (false, st)) ∧
    (st.finances.balance < 8 → performAction "treat" now st = (false, st)) ∧
    (st.finances.balance < 3 → performAction "play" now st = (false, st)) ∧
    (st.finances.balance < 8 → performAction "clean" now st = (false, st)) := by
  have hfail : ∀ (k : String) (b : ActionCost), ACTION_COSTS k = some b →
      st.finances.balance < b.cost → spendMoney k now st = (false, st) := by
    intro k b hB hlt
    unfold spendMoney
    rw [hB]
    simp only [hlt, if_true]
  refine ⟨hfail key a hA, ?_, ?_, ?_, ?_, ?_⟩
  · intro hge
    have hlt : ¬st.finances.balance < a.cost := not_lt.mpr hge
    simp [spendMoney, hA, hlt]
  · intro hlt
    have e : performAction "feed" now st =
        paidAction { hunger := some 25, energy := some 5 } "feed" .eating now st := rfl
    rw [e]
    unfold paidAction
    rw [hfail "feed" ⟨5, .food, "Pet food"⟩ rfl hlt]
    simp
  · intro hlt
    have e : performAction "treat" now st =
        paidAction { hunger := some 15, happiness := some 20 } "treat" .love now st := rfl
    rw [e]
    unfold paidAction
    rw [hfail "treat" ⟨8, .food, "Special treat"⟩ rfl hlt]
    simp
  · intro hlt
    have e : performAction "play" now st =
        paidAction { happiness := some 25, energy := some (-15) } "play" .playing now st := rfl
    rw [e]
    unfold paidAction
    rw [hfail "play" ⟨3, .toy, "Play session"⟩ rfl hlt]
    simp
  · intro hlt
    have e : performAction "clean" now st =
        paidAction { cleanliness := some 40, happiness := some 5 } "bath" .sparkle now st := rfl
    rw [e]
    unfold paidAction
    rw [hfail "bath" ⟨8, .grooming, "Bath supplies"⟩ rfl hlt]
    simp

/-- C3 witness: with balance 5 the feed charge (cost 5) succeeds leaving
balance 0; with balance 4 it fails leaving the state (hence balance 4)
unchanged. -/
theorem spendMoney_charge_witness :
    (spendMoney "feed" 0 stBal5).1 = true ∧
    (spendMoney "feed" 0 stBal5).2.finances.balance = 0 ∧
    spendMoney "feed" 0 stBal4 = (false, stBal4) ∧
    performAction "feed" 0 stBal4 = (false, stBal4) := by
  have h5 := (spendMoney_charge "feed" ⟨5, .food, "Pet food"⟩ 0 stBal5 rfl).2.1
    (by show (5:ℚ) ≤ stBal5.finances.balance; with_unfolding_all decide)
  have h4 := spendMoney_charge "feed" ⟨5, .food, "Pet food"⟩ 0 stBal4 rfl
  have hlt4 : stBal4.finances.balance < (5:ℚ) := by with_unfolding_all decide
  refine ⟨h5.1, ?_, h4.1 hlt4, (h4.2.2.1) hlt4⟩
  rw [h5.2.1]
  show stBal5.finances.balance - 5 = 0
  with_unfolding_all decide

/-- C4 counterexample: from a legal state whose stored mood matches its
stats (energy exactly 30, mood neutral), teachTrick succeeds, drops
energy to 10, and leaves the stored mood neutral even though
calculateMood of the new stats is tired — the stored mood is stale. -/
theorem teachTrick_leaves_mood_stale :
    (teachTrick "wave" 1 staleSt).1 = true ∧
    staleSt.pet.mood = calculateMood staleSt.pet.stats ∧
    (teachTrick "wave" 1 staleSt).2.pet.mood ≠
      calculateMood (teachTrick "wave" 1 staleSt).2.pet.stats := by
  with_unfolding_all decide

/-- C4 amended: after updateStats (and hence any successful
performAction), after a decay tick with a pet present, and after a
successful performVetService, the stored mood equals calculateMood of
the new stats and the stored color is derived from that mood and the
pet's type; teachTrick, however, changes energy and happiness without
recomputing mood or color, so the stored mood can be stale after
teachTrick. -/
theorem mood_recomputed_after_mutations (st : GameState) (changes : StatChanges)
    (action : String) (s : VetServiceType) (now : Nat) :
    moodConsistent (updateStats changes now st) ∧
    (st.isFirstTime = false → moodConsistent (decayTick now st)) ∧
    ((performAction action now st).1 = true → moodConsistent (performAction action now st).2) ∧
    ((performVetService s now st).1 = true → moodConsistent (performVetService s now st).2) := by
  refine ⟨⟨rfl, rfl⟩, ?_, ?_, ?_⟩
  · intro h
    exact ⟨by simp [decayTick, h], by simp [decayTick, h]⟩
  · have hpaid : ∀ (c : StatChanges) (key : String) (r : ReactionType),
        (paidAction c key r now st).1 = true → moodConsistent (paidAction c key r now st).2 := by
      intro c key r
      unfold paidAction
      by_cases hr : (spendMoney key now st).1
      · simp only [hr, if_true]
        intro _
        exact ⟨rfl, rfl⟩
      · simp only [hr, if_false]
        intro hcon
        simp at hcon
    intro hs
    by_cases h1 : action = "feed"
    · subst h1
      have e : performAction "feed" now st =
          paidAction { hunger := some 25, energy := some 5 } "feed" .eating now st := rfl
      rw [e] at hs ⊢
      exact hpaid _ _ _ hs
    · by_cases h2 : action = "treat"
      · subst h2
        have e : performAction "treat" now st =
            paidAction { hunger := some 15, happiness := some 20 } "treat" .love now st := rfl
        rw [e] at hs ⊢
        exact hpaid _ _ _ hs
      · by_cases h3 : action = "play"
        · subst h3
          have e : performAction "play" now st =
              paidAction { happiness := some 25, energy := some (-15) } "play" .playing now st := rfl
          rw [e] at hs ⊢
          exact hpaid _ _ _ hs
        · by_cases h4 : action = "rest"
          · subst h4
            have e : performAction "rest" now st =
                (true, setReaction .sleeping
                  (updateStats { energy := some 35, happiness := some 5 } now st)) := rfl
            rw [e]
            exact ⟨rfl, rfl⟩
          · by_cases h5 : action = "clean"
            · subst h5
              have e : performAction "clean" now st =
                  paidAction { cleanliness := some 40, happiness := some 5 } "bath" .sparkle now st := rfl
              rw [e] at hs ⊢
              exact hpaid _ _ _ hs
            · have e : performAction action now st = (false, st) := by
                unfold performAction
                simp only [h1, h2, h3, h4, h5, if_false]
              rw [e] at hs
              simp at hs
  · intro hs
    unfold performVetService at hs ⊢
    by_cases hb : st.finances.balance < (VET_SERVICES s).cost
    · simp only [hb, if_true] at hs
      exact absurd hs (by simp)
    · simp only [hb, if_false] at hs ⊢
      exact ⟨rfl, rfl⟩

/-- C4 witness: the amended theorem applied at the fresh Rex state: the
decay tick there produces a consistent mood and color. -/
theorem mood_recomputed_after_mutations_witness :
    moodConsistent (decayTick 1 freshRex) :=
  (mood_recomputed_after_mutations freshRex {} "feed" .checkup 1).2.1 rfl

/-- C5: when a pet exists (first-time flag false), each decay tick
subtracts the fixed per-stat amounts (hunger 2, happiness 1, energy 1,
cleanliness 1.5), health decays at 3 exactly when the pre-tick hunger or
pre-tick cleanliness is below 20 and at 0.5 otherwise, each result is
clamped to at least 0, mood and color are recomputed from the new stats,
and the last-updated timestamp is stamped; while the first-time flag is
true a decay tick does not mutate the state. -/
theorem decayTick_behaviour (now : Nat) (st : GameState) :
    (st.isFirstTime = true → decayTick now st = st) ∧
    (st.isFirstTime = false →
      (decayTick now st).lastUpdated = now ∧
      (decayTick now st).pet.stats.hunger = max 0 (st.pet.stats.hunger - 2) ∧
      (decayTick now st).pet.stats.happiness = max 0 (st.pet.stats.happiness - 1) ∧
      (decayTick now st).pet.stats.energy = max 0 (st.pet.stats.energy - 1) ∧
      (decayTick now st).pet.stats.cleanliness = max 0 (st.pet.stats.cleanliness - 3/2) ∧
      (st.pet.stats.hunger < 20 ∨ st.pet.stats.cleanliness < 20 →
        (decayTick now st).pet.stats.health = max 0 (st.pet.stats.health - 3)) ∧
      (¬(st.pet.stats.hunger < 20 ∨ st.pet.stats.cleanliness < 20) →
        (decayTick now st).pet.stats.health = max 0 (st.pet.stats.health - 1/2)) ∧
      (decayTick now st).pet.mood = calculateMood (decayTick now st).pet.stats ∧
      (decayTick now st).pet.color =
        getMoodColor (decayTick now st).pet.mood (some (CHAMELEON_TYPES st.pet.type).baseColor)) := by
  constructor
  · intro h
    unfold decayTick
    simp only [h, if_true]
  · intro h
    refine ⟨?_, ?_, ?_, ?_, ?_, ?_, ?_, ?_, ?_⟩
    · simp [decayTick, h]
    · simp [decayTick, h]
    · simp [decayTick, h]
    · simp [decayTick, h]
    · simp [decayTick, h]
    · intro hc
      simp [decayTick, h, hc]
    · intro hc
      simp [decayTick, h, hc]
    · simp [decayTick, h]
    · simp [decayTick, h]

/-- C5 witness: the decay theorem applied concretely: the tick is the
identity on the fresh (first-time) default state, and stamps the
timestamp on the fresh Rex state where a pet exists. -/
theorem decayTick_behaviour_witness :
    decayTick 3 (createInitialGameState 0) = createInitialGameState 0 ∧
    (decayTick 5 freshRex).lastUpdated = 5 :=
  ⟨(decayTick_behaviour 3 (createInitialGameState 0)).1 rfl,
   ((decayTick_behaviour 5 freshRex).2 rfl).1⟩

/-! Facts about the badge bookkeeping used by the achievement checks. -/

theorem hasBadge_iff (l : List Badge) (bid : String) :
    hasBadge l bid = true ↔ bid ∈ l.map Badge.id := by
  unfold hasBadge
  rw [List.find?_isSome]
  constructor
  · rintro ⟨b, hbl, hb⟩
    exact List.mem_map.mpr ⟨b, hbl, by simpa using hb⟩
  · intro hm
    obtain ⟨b, hbl, hid⟩ := List.mem_map.mp hm
    exact ⟨b, hbl, by simp [hid]⟩

theorem hasBadge_false_notMem {l : List Badge} {bid : String} (h : hasBadge l bid = false) :
    bid ∉ l.map Badge.id := by
  intro hm
  have := (hasBadge_iff l bid).mpr hm
  rw [h] at this
  exact Bool.false_ne_true this

theorem pushBadge_ids (bid : String) (now : Nat) (l : List Badge) :
    (pushBadge bid now l).map Badge.id = l.map Badge.id ∨
    (pushBadge bid now l).map Badge.id = l.map Badge.id ++ [bid] := by
  unfold pushBadge
  cases hf : AVAILABLE_BADGES.find? (fun b => b.id == bid) with
  | none => exact Or.inl rfl
  | some b =>
    right
    have hb : b.id = bid := by simpa using List.find?_some hf
    simp [hb]

theorem pushBadge_nodup {l : List Badge} {bid : String} {now : Nat}
    (hn : (l.map Badge.id).Nodup) (hm : bid ∉ l.map Badge.id) :
    ((pushBadge bid now l).map Badge.id).Nodup := by
  rcases pushBadge_ids bid now l with h | h <;> rw [h]
  · exact hn
  · rw [List.nodup_append]
    refine ⟨hn, List.nodup_singleton bid, ?_⟩
    intro a ha hb
    rw [List.mem_singleton] at hb
    subst hb
    exact hm ha

theorem guardPush_nodup {l : List Badge} (hn : (l.map Badge.id).Nodup) (cond : Prop)
    [Decidable cond] (bid : String) (now : Nat) (himp : cond → hasBadge l bid = false) :
    ((if cond then pushBadge bid now l else l).map Badge.id).Nodup := by
  split_ifs with h
  · exact pushBadge_nodup hn (hasBadge_false_notMem (himp h))
  · exact hn

theorem hasBadge_pushBadge_self {bid : String} {b : Badge}
    (hf : AVAILABLE_BADGES.find? (fun x => x.id == bid) = some b) (now : Nat) (l : List Badge) :
    hasBadge (pushBadge bid now l) bid = true := by
  rw [hasBadge_iff]
  unfold pushBadge
  rw [hf]
  have hb : b.id = bid := by simpa using List.find?_some hf
  simp [hb]

theorem hasBadge_pushBadge_mono {l : List Badge} {bid : String} (h : hasBadge l bid = true)
    (bid2 : String) (now : Nat) : hasBadge (pushBadge bid2 now l) bid = true := by
  rw [hasBadge_iff] at h ⊢
  rcases pushBadge_ids bid2 now l with he | he <;> rw [he]
  · exact h
  · exact List.mem_append_left _ h

/-! Badge-list frame facts for the operations that do not grant badges. -/

theorem decayTick_badges (now : Nat) (st : GameState) :
    (decayTick now st).badges = st.badges := by
  unfold decayTick
  split_ifs <;> rfl

theorem playTimeTick_badges (st : GameState) :
    (playTimeTick st).badges = st.badges := by
  unfold playTimeTick
  split_ifs <;> rfl

/-! Every badge-granting site preserves distinctness of badge ids. -/

theorem spendMoney_badgesOk {st : GameState} (hn : BadgesOk st) (k : String) (now : Nat) :
    BadgesOk (spendMoney k now st).2 := by
  unfold BadgesOk
  rw [spendMoney_badges]
  exact hn

theorem earnMoney_badgesOk {st : GameState} (hn : BadgesOk st) (amount : ℚ) (choreId : String)
    (now : Nat) : BadgesOk (earnMoney amount choreId now st) := by
  unfold BadgesOk earnMoney at *
  dsimp only
  split_ifs with h2 h1 h1
  · have hn1 : ((pushBadge "hard_worker" now st.badges).map Badge.id).Nodup :=
      pushBadge_nodup hn (hasBadge_false_notMem h1.2)
    apply pushBadge_nodup hn1
    rcases pushBadge_ids "hard_worker" now st.badges with he | he <;> rw [he]
    · exact hasBadge_false_notMem h2.2
    · intro hm
      rcases List.mem_append.mp hm with hm1 | hm1
      · exact hasBadge_false_notMem h2.2 hm1
      · rw [List.mem_singleton] at hm1
        exact absurd hm1 (by decide)
  · exact pushBadge_nodup hn (hasBadge_false_notMem h2.2)
  · exact pushBadge_nodup hn (hasBadge_false_notMem h1.2)
  · exact hn

theorem happyCamperCheck_badgesOk {st : GameState} (hn : BadgesOk st) (now : Nat) :
    BadgesOk (happyCamperCheck now st) := by
  unfold BadgesOk happyCamperCheck
  dsimp only
  exact guardPush_nodup hn _ _ _ (fun h => h.2)

theorem performAction_badgesOk {st : GameState} (hn : BadgesOk st) (a : String) (now : Nat) :
    BadgesOk (performAction a now st).2 := by
  have hpaid : ∀ (c : StatChanges) (key : String) (r : ReactionType),
      BadgesOk (paidAction c key r now st).2 := by
    intro c key r
    unfold paidAction
    by_cases hr : (spendMoney key now st).1
    · simp only [hr, if_true]
      have hsp : BadgesOk (setReaction r (updateStats c now (spendMoney key now st).2)) :=
        spendMoney_badgesOk hn key now
      exact happyCamperCheck_badgesOk hsp now
    · simp only [hr, if_false]
      exact hn
  unfold performAction
  split_ifs <;> first
    | exact hpaid _ _ _
    | exact hn

theorem performVetService_badgesOk {st : GameState} (hn : BadgesOk st) (s : VetServiceType)
    (now : Nat) : BadgesOk (performVetService s now st).2 := by
  unfold performVetService
  by_cases hb : st.finances.balance < (VET_SERVICES s).cost
  · simp only [hb, if_true]
    exact hn
  · simp only [hb, if_false]
    exact guardPush_nodup hn _ _ _ (fun h => h.2)

theorem teachTrick_badgesOk {st : GameState} (hn : BadgesOk st) (n : String) (now : Nat) :
    BadgesOk (teachTrick n now st).2 := by
  unfold teachTrick
  by_cases he : st.pet.stats.energy < 30
  · simp only [he, if_true]
    exact hn
  · simp only [he, if_false]
    by_cases hm : n ∈ st.pet.tricks
    · simp only [hm, if_true]
      exact hn
    · simp only [hm, if_false]
      exact guardPush_nodup hn _ _ _ (fun h => h.2)

theorem evolutionTick_badgesOk {st : GameState} (hn : BadgesOk st) (now : Nat) :
    BadgesOk (evolutionTick now st) := by
  unfold evolutionTick
  by_cases hf : st.isFirstTime
  · simp only [hf, if_true]
    exact hn
  · simp only [hf, Bool.false_eq_true, if_false]
    split_ifs with hs h2 hb hb <;>
      first
        | exact hn
        | exact pushBadge_nodup hn (hasBadge_false_notMem (by assumption))

theorem initPet_badgesOk {st : GameState} (hn : BadgesOk st) (name : String)
    (type : ChameleonType) (now : Nat) : BadgesOk (initPet name type now st).2 := by
  unfold initPet
  by_cases h1 : trimString name = ""
  · simp only [h1, if_true]
    exact hn
  · simp only [h1, if_false]
    by_cases h2 : 20 < name.length
    · simp only [h2, if_true]
      exact hn
    · simp only [h2, if_false]
      exact List.nodup_singleton _

theorem applyOp_badgesOk (op : Op) {st : GameState} (hn : BadgesOk st) :
    BadgesOk (applyOp op st) := by
  cases op with
  | decay now =>
    show BadgesOk (decayTick now st)
    unfold BadgesOk
    rw [decayTick_badges]
    exact hn
  | playTime =>
    show BadgesOk (playTimeTick st)
    unfold BadgesOk
    rw [playTimeTick_badges]
    exact hn
  | evolve now => exact evolutionTick_badgesOk hn now
  | init now name type => exact initPet_badgesOk hn name type now
  | update changes now => exact hn
  | spend key now => exact spendMoney_badgesOk hn key now
  | earn amount choreId now => exact earnMoney_badgesOk hn amount choreId now
  | act action now => exact performAction_badgesOk hn action now
  | vet s now => exact performVetService_badgesOk hn s now
  | trick name now => exact teachTrick_badgesOk hn name now
  | react r => exact hn
  | reset now => exact List.nodup_nil

theorem runOps_badgesOk (now : Nat) (ops : List Op) : BadgesOk (runOps now ops) := by
  unfold runOps
  have h : ∀ (l : List Op) (st : GameState), BadgesOk st →
      BadgesOk (l.foldl (fun s o => applyOp o s) st) := by
    intro l
    induction l with
    | nil => exact fun _ h => h
    | cons o t ih => exact fun st h => ih _ (applyOp_badgesOk o h)
  exact h ops _ List.nodup_nil

/-- C6: badge granting is idempotent: every engine operation preserves
distinctness of earned-badge ids (a badge already present is never
appended again), and hence in every state reachable from the fresh game
state by any sequence of engine operations each badge id appears at most
once (so it carries a single earnedAt timestamp). -/
theorem badge_granting_idempotent :
    (∀ (op : Op) (st : GameState), BadgesOk st → BadgesOk (applyOp op st)) ∧
    (∀ (now : Nat) (ops : List Op), BadgesOk (runOps now ops)) :=
  ⟨fun op _ hn => applyOp_badgesOk op hn, fun now ops => runOps_badgesOk now ops⟩

/-- C6 witness: the preservation theorem applied at the fresh Rex state
for a chore completion, and the reachable-state part applied to a
concrete run. -/
theorem badge_granting_idempotent_witness :
    BadgesOk (applyOp (Op.earn 8 "dishes" 0) freshRex) ∧
    BadgesOk (runOps 0 [Op.init 1 "Rex" .veiled, Op.act "feed" 2, Op.trick "wave" 3]) :=
  ⟨badge_granting_idempotent.1 (Op.earn 8 "dishes" 0) freshRex (by with_unfolding_all decide),
   badge_granting_idempotent.2 0 _⟩

theorem teachTrick_fail {trickName : String} {now : Nat} {st : GameState}
    (h : st.pet.stats.energy < 30 ∨ trickName ∈ st.pet.tricks) :
    teachTrick trickName now st = (false, st) := by
  unfold teachTrick
  by_cases h1 : st.pet.stats.energy < 30
  · simp only [h1, if_true]
  · simp only [h1, if_false]
    rcases h with h | h
    · exact absurd h h1
    · simp only [h, if_true]

theorem teachTrick_succ_tricks {trickName : String} {now : Nat} {st : GameState}
    (h1 : ¬st.pet.stats.energy < 30) (h2 : trickName ∉ st.pet.tricks) :
    ((teachTrick trickName now st).2).pet.tricks = st.pet.tricks ++ [trickName] := by
  unfold teachTrick
  simp only [h1, h2, if_false]
  rfl

/-- C7: teachTrick returns false and leaves the state unchanged whenever
energy is below 30 or the name is already known; consequently a second
call with the same name cannot add a second entry (after a successful
call, teaching the same name again leaves exactly one entry of it), and
teachTrick preserves distinctness of the learned-trick list. -/
theorem teachTrick_guards (trickName : String) (now : Nat) (st : GameState) :
    (st.pet.stats.energy < 30 ∨ trickName ∈ st.pet.tricks →
      teachTrick trickName now st = (false, st)) ∧
    ((teachTrick trickName now st).1 = true → ∀ now2 : Nat,
      ((teachTrick trickName now2 (teachTrick trickName now st).2).2).pet.tricks.count trickName = 1) ∧
    (st.pet.tricks.Nodup → ((teachTrick trickName now st).2).pet.tricks.Nodup) := by
  refine ⟨fun h => teachTrick_fail h, ?_, ?_⟩
  · intro hs now2
    by_cases h1 : st.pet.stats.energy < 30
    · rw [teachTrick_fail (Or.inl h1)] at hs
      simp at hs
    · by_cases h2 : trickName ∈ st.pet.tricks
      · rw [teachTrick_fail (Or.inr h2)] at hs
        simp at hs
      · have e1 : ((teachTrick trickName now st).2).pet.tricks = st.pet.tricks ++ [trickName] :=
          teachTrick_succ_tricks h1 h2
        have hmem : trickName ∈ ((teachTrick trickName now st).2).pet.tricks := by
          rw [e1]
          exact List.mem_append_right _ (List.mem_singleton.mpr rfl)
        have e2 : teachTrick trickName now2 (teachTrick trickName now st).2 =
            (false, (teachTrick trickName now st).2) := teachTrick_fail (Or.inr hmem)
        rw [e2]
        show ((teachTrick trickName now st).2).pet.tricks.count trickName = 1
        rw [e1, List.count_append, List.count_eq_zero.mpr h2]
        simp
  · intro hn
    by_cases h1 : st.pet.stats.energy < 30
    · rw [teachTrick_fail (Or.inl h1)]
      exact hn
    · by_cases h2 : trickName ∈ st.pet.tricks
      · rw [teachTrick_fail (Or.inr h2)]
        exact hn
      · rw [teachTrick_succ_tricks h1 h2]
        rw [List.nodup_append]
        refine ⟨hn, List.nodup_singleton trickName, ?_⟩
        intro a ha hb
        rw [List.mem_singleton] at hb
        subst hb
        exact h2 ha

/-- C7 witness: teaching the trick from the fresh Rex state succeeds, a
repeat teaching of the same name fails without mutation, the list holds
exactly one entry of the name, and distinctness is preserved. -/
theorem teachTrick_guards_witness :
    teachTrick "spin" 2 (teachTrick "spin" 0 freshRex).2 = (false, (teachTrick "spin" 0 freshRex).2) ∧
    ((teachTrick "spin" 1 (teachTrick "spin" 0 freshRex).2).2).pet.tricks.count "spin" = 1 ∧
    ((teachTrick "spin" 0 freshRex).2).pet.tricks.Nodup :=
  ⟨(teachTrick_guards "spin" 2 (teachTrick "spin" 0 freshRex).2).1
      (Or.inr (by with_unfolding_all decide)),
   (teachTrick_guards "spin" 0 freshRex).2.1 (by with_unfolding_all decide) 1,
   (teachTrick_guards "spin" 0 freshRex).2.2 (by with_unfolding_all decide)⟩

/-- C8 counterexample: the name containing a character that is not a
letter, digit or space is invalid under the claimed 1 to 20 character
alphanumeric-plus-space rule (and the welcome screen rejects it), yet
initializePet accepts it and creates the pet. -/
theorem initPet_accepts_illegal_name :
    (initPet "a!" ChameleonType.veiled 0 (createInitialGameState 0)).1 = true ∧
    ("a!".data.all (fun c => c.isAlphanum || c == ' ')) = false ∧
    welcomeNameOk "a!" = false := by
  with_unfolding_all decide

/-- C8 amended: initializePet itself rejects only a name that trims to
empty or whose raw length exceeds 20 characters (returning false with the
state unchanged), and accepts every other name; the minimum-length and
letters-digits-spaces checks are performed only by the welcome screen
before initializePet is ever called. -/
theorem initPet_validation (name : String) (type : ChameleonType) (now : Nat) (st : GameState) :
    (trimString name = "" → initPet name type now st = (false, st)) ∧
    (20 < name.length → initPet name type now st = (false, st)) ∧
    (trimString name ≠ "" → name.length ≤ 20 →
      (initPet name type now st).1 = true ∧
      (initPet name type now st).2.pet.name = trimString name ∧
      (initPet name type now st).2.isFirstTime = false) ∧
    (welcomeNameOk name = true →
      trimString name ≠ "" ∧ 2 ≤ (trimString name).length ∧ (trimString name).length ≤ 20 ∧
      (trimString name).data.all (fun c => c.isAlphanum || c.isWhitespace) = true) := by
  refine ⟨?_, ?_, ?_, ?_⟩
  · intro h
    unfold initPet
    simp only [h, if_true]
  · intro h
    unfold initPet
    by_cases h1 : trimString name = ""
    · simp only [h1, if_true]
    · simp only [h1, h, if_true, if_false]
  · intro h1 h2
    have h2' : ¬20 < name.length := not_lt.mpr h2
    unfold initPet
    simp only [h1, h2', if_false]
    exact ⟨by trivial, by trivial, by trivial⟩
  · intro h
    unfold welcomeNameOk at h
    by_cases h1 : trimString name = ""
    · simp only [h1, if_true] at h
      exact absurd h (by simp)
    · simp only [h1, if_false] at h
      by_cases h2 : (trimString name).length < 2
      · simp only [h2, if_true] at h
        exact absurd h (by simp)
      · simp only [h2, if_false] at h
        by_cases h3 : 20 < (trimString name).length
        · simp only [h3, if_true] at h
          exact absurd h (by simp)
        · simp only [h3, if_false] at h
          exact ⟨h1, by omega, by omega, h⟩

/-- C8 witness: the amended validation theorem applied concretely: an
all-whitespace name is rejected without mutation; the name Rex is
accepted. -/
theorem initPet_validation_witness :
    initPet "   " ChameleonType.veiled 0 (createInitialGameState 0) =
      (false, createInitialGameState 0) ∧
    (initPet "Rex" ChameleonType.veiled 0 (createInitialGameState 0)).1 = true :=
  ⟨(initPet_validation "   " ChameleonType.veiled 0 (createInitialGameState 0)).1 (by decide),
   ((initPet_validation "Rex" ChameleonType.veiled 0 (createInitialGameState 0)).2.2.1
      (by decide) (by decide)).1⟩

/-- C9: a freshly initialized game with a new pet of type veiled starts
with balance 50, stats hunger 75, happiness 80, health 100, energy 85,
cleanliness 95, and stored mood happy; performAction feed (cost 5) then
succeeds and yields balance 45, hunger 100 (at the upper bound) and
energy 90. -/
theorem fresh_game_feed_scenario :
    ACTION_COSTS "feed" = some ⟨5, .food, "Pet food"⟩ ∧
    freshRex.pet.type = ChameleonType.veiled ∧
    freshRex.finances.balance = 50 ∧
    freshRex.pet.stats = { hunger := 75, happiness := 80, health := 100, energy := 85, cleanliness := 95 } ∧
    freshRex.pet.mood = PetMood.happy ∧
    (performAction "feed" 1 freshRex).1 = true ∧
    (performAction "feed" 1 freshRex).2.finances.balance = 45 ∧
    (performAction "feed" 1 freshRex).2.pet.stats.hunger = 100 ∧
    (performAction "feed" 1 freshRex).2.pet.stats.energy = 90 := by
  with_unfolding_all decide

/-- C10: earnMoney unconditionally appends the chore id to the
completed-chore list (no deduplication or cooldown in the engine), and
grants the hard_worker (Super Helper) badge as soon as that list reaches
length 10 — so repeated completions of the same chore id count exactly
like distinct chores. -/
theorem earnMoney_no_dedup (amount : ℚ) (choreId : String) (now : Nat) (st : GameState) :
    (earnMoney amount choreId now st).completedChores = st.completedChores ++ [choreId] ∧
    (st.completedChores.length = 9 → hasBadge st.badges "hard_worker" = false →
      hasBadge (earnMoney amount choreId now st).badges "hard_worker" = true) := by
  constructor
  · rfl
  · intro h9 hnb
    have hf : AVAILABLE_BADGES.find? (fun x => x.id == "hard_worker") =
        some ⟨"hard_worker", "Super Helper", "Complete 10 chores", "I6", Option.none, "Do 10 chores"⟩ := by
      decide
    have hlen : 10 ≤ (st.completedChores ++ [choreId]).length := by
      simp [List.length_append, h9]
    have hself : hasBadge (pushBadge "hard_worker" now st.badges) "hard_worker" = true :=
      hasBadge_pushBadge_self hf now st.badges
    unfold earnMoney
    dsimp only
    simp only [hlen, hnb, and_true, if_true, true_and]
    split_ifs with h2
    · exact hasBadge_pushBadge_mono hself "money_saver" now
    · exact hself

/-- C10 witness: nine completions of the same chore dishes leave the
badge unearned; the tenth completion of that same chore id appends it
again and grants the Super Helper badge. -/
theorem earnMoney_no_dedup_witness :
    nineSame.completedChores.length = 9 ∧
    hasBadge nineSame.badges "hard_worker" = false ∧
    (earnMoney 8 "dishes" 9 nineSame).completedChores = nineSame.completedChores ++ ["dishes"] ∧
    hasBadge (earnMoney 8 "dishes" 9 nineSame).badges "hard_worker" = true :=
  ⟨by with_unfolding_all decide,
   by with_unfolding_all decide,
   (earnMoney_no_dedup 8 "dishes" 9 nineSame).1,
   (earnMoney_no_dedup 8 "dishes" 9 nineSame).2
     (by with_unfolding_all decide) (by with_unfolding_all decide)⟩
